import Mathlib

/-
Verification development for an asteroid-impact estimation service.

The model is a shallow embedding of the program's physics helpers
(`sphere_mass`, `kinetic_energy_joules`, `tnt_equivalent_megatons`,
`crater_diameter_estimate_m`, `seismic_mw_equivalent`,
`tsunami_initial_wave_height_m`), its simulation pipeline (`simulate`,
split into NEO-diameter resolution and the pure arithmetic pipeline),
and its narrative formatter (`story`).  IEEE-754 doubles are modelled
as real numbers; Python dictionaries with optional keys are modelled
as structures of `Option` fields; Python exceptions surfaced as HTTP
failures are modelled with `Except`.
-/

namespace NASAapp

noncomputable section

open Real

/-- Mass of a uniform sphere of the given diameter and density
(`sphere_mass` in the source): `(4/3)·π·r³·ρ` with `r = diameter/2`. -/
def sphere_mass (diameter_m : ℝ) (density : ℝ) : ℝ :=
  (4 / 3) * Real.pi * (diameter_m / 2) ^ 3 * density

/-- Kinetic energy `0.5·m·v²` (`kinetic_energy_joules` in the source). -/
def kinetic_energy_joules (mass_kg : ℝ) (velocity_m_s : ℝ) : ℝ :=
  0.5 * mass_kg * velocity_m_s ^ 2

/-- TNT equivalent in megatons: `E / 4.184e15`
(`tnt_equivalent_megatons` in the source). -/
def tnt_equivalent_megatons (E_joules : ℝ) : ℝ :=
  E_joules / 4.184e15

/-- Crater diameter estimate `0.07 · E^(1/3)`
(`crater_diameter_estimate_m` in the source). -/
def crater_diameter_estimate_m (E_joules : ℝ) : ℝ :=
  0.07 * E_joules ^ ((1 : ℝ) / 3)

/-- Seismic moment-magnitude equivalent (`seismic_mw_equivalent` in the
source): `0` for non-positive energy, else `(log10 E - 5.24) / 1.44`. -/
def seismic_mw_equivalent (E_joules : ℝ) : ℝ :=
  if E_joules ≤ 0 then 0 else (Real.logb 10 E_joules - 5.24) / 1.44

/-- Initial tsunami wave height (`tsunami_initial_wave_height_m` in the
source): `0.5 · (E/1e15)^0.25` times a depth factor clamped to
`[0.5, 2]`, with the final height clamped to `[0.01, 200]`. -/
def tsunami_initial_wave_height_m (E_joules : ℝ) (water_depth_m : ℝ) : ℝ :=
  let scale := (E_joules / 1e15) ^ ((1 : ℝ) / 4)
  let depth_factor := max 0.5 (min 2.0 (4000.0 / max 1.0 water_depth_m))
  let h := 0.5 * scale * depth_factor
  max 0.01 (min h 200.0)

/-- A simulation request: the JSON body of a `/simulate` call.  Absent
keys are `none`; `data.get(key, default)` is `Option.getD`. -/
structure SimRequest where
  diameter_m : Option ℝ
  velocity_m_s : Option ℝ
  density : Option ℝ
  water_depth_m : Option ℝ
  deflection_m_s : Option ℝ
  impact_lat : Option ℝ
  impact_lon : Option ℝ
  neo_id : Option String

/-- The NEO catalog payload, reduced to the one path the program reads:
`estimated_diameter.meters.estimated_diameter_max`.  A payload missing
that path is modelled by `none` (the source's bare `except: pass`). -/
structure NeoPayload where
  estimated_diameter_max : Option ℝ

/-- The echoed, normalized input block of the response. -/
structure NormalizedInput where
  diameter_m : ℝ
  velocity_m_s : ℝ
  density : ℝ
  deflection_m_s : ℝ
  impact_lat : Option ℝ
  impact_lon : Option ℝ
  water_depth_m : ℝ

/-- The derived physical quantities in the response. -/
structure ImpactResults where
  mass_kg : ℝ
  energy_joules : ℝ
  tnt_megatons : ℝ
  crater_diameter_m : ℝ
  seismic_mw_equivalent : ℝ
  tsunami_initial_height_m : ℝ
  tsunami_radius_km : ℝ

/-- A full successful simulation response. -/
structure SimResponse where
  input : NormalizedInput
  results : ImpactResults
  notes : String

/-- Diameter resolution (source lines 54-61): when `neo_id` is a truthy
(non-empty) string, look it up; a lookup failure aborts the request
with the `"Failed to fetch NEO: "` message; a successful payload with
the diameter path missing silently keeps the caller's diameter. -/
def resolveDiameter (lookup : String → Except String NeoPayload)
    (req : SimRequest) : Except String (Option ℝ) :=
  match req.neo_id with
  | some id =>
      if id = "" then Except.ok req.diameter_m
      else
        match lookup id with
        | Except.error e => Except.error ("Failed to fetch NEO: " ++ e)
        | Except.ok neo =>
            match neo.estimated_diameter_max with
            | some d => Except.ok (some d)
            | none => Except.ok req.diameter_m
  | none => Except.ok req.diameter_m

/-- The pure part of `simulate` (source lines 63-100): defaults,
deflection adjustment, the physics chain, and response assembly.
The source computes `tsunami_radius_km` inside a `try`, but over real
arithmetic the expression is total, so the formula branch is the only
one; the `except` fallback to `0` is unreachable in this model. -/
def runPipeline (dOpt : Option ℝ) (req : SimRequest) : SimResponse :=
  let D := dOpt.getD 50
  let v := req.velocity_m_s.getD 20000
  let rho := req.density.getD 3000
  let water_depth := req.water_depth_m.getD 4000
  let deflection := req.deflection_m_s.getD 0
  let v_effective := max 0 (v - deflection)
  let mass := sphere_mass D rho
  let E := kinetic_energy_joules mass v_effective
  let tnt_mt := tnt_equivalent_megatons E
  let crater_m := crater_diameter_estimate_m E
  let seismic_mw := seismic_mw_equivalent E
  let tsunami_h := tsunami_initial_wave_height_m E water_depth
  let tsunami_radius := min 5000.0 (100.0 * (max 0.001 tnt_mt) ^ ((1 : ℝ) / 4))
  { input := { diameter_m := D, velocity_m_s := v, density := rho,
               deflection_m_s := deflection, impact_lat := req.impact_lat,
               impact_lon := req.impact_lon, water_depth_m := water_depth },
    results := { mass_kg := mass, energy_joules := E, tnt_megatons := tnt_mt,
                 crater_diameter_m := crater_m, seismic_mw_equivalent := seismic_mw,
                 tsunami_initial_height_m := tsunami_h,
                 tsunami_radius_km := tsunami_radius },
    notes := "All estimates are rough heuristics for demo/educational purposes." }

/-- The `/simulate` handler: resolve the diameter (possibly failing),
then run the pure pipeline. -/
def simulate (lookup : String → Except String NeoPayload)
    (req : SimRequest) : Except String SimResponse :=
  match resolveDiameter lookup req with
  | Except.error e => Except.error e
  | Except.ok dOpt => Except.ok (runPipeline dOpt req)

/-- A catalog collaborator that always fails (network unavailable). -/
def failLookup : String → Except String NeoPayload :=
  fun _ => Except.error "boom"

/-- End-to-end scenario 1 request. -/
def scenario1 : SimRequest :=
  { diameter_m := some 50, velocity_m_s := some 20000, density := some 3000,
    water_depth_m := some 4000, deflection_m_s := some 0,
    impact_lat := none, impact_lon := none, neo_id := none }

/-- Scenario 1 response. -/
def scenario1Resp : SimResponse := runPipeline (some 50) scenario1

/-- End-to-end scenario 2 request: deflection exceeds velocity. -/
def scenario2 : SimRequest :=
  { diameter_m := some 50, velocity_m_s := some 20000, density := some 3000,
    water_depth_m := some 4000, deflection_m_s := some 25000,
    impact_lat := none, impact_lon := none, neo_id := none }

/-- Scenario 2 response. -/
def scenario2Resp : SimResponse := runPipeline (some 50) scenario2

/-- A request with every key absent. -/
def emptyReq : SimRequest :=
  { diameter_m := none, velocity_m_s := none, density := none,
    water_depth_m := none, deflection_m_s := none,
    impact_lat := none, impact_lon := none, neo_id := none }

-- ---------- generic inversion and unfolding lemmas ----------

lemma simulate_ok_inv {lookup : String → Except String NeoPayload}
    {req : SimRequest} {resp : SimResponse}
    (h : simulate lookup req = Except.ok resp) :
    ∃ dOpt, resolveDiameter lookup req = Except.ok dOpt ∧
      resp = runPipeline dOpt req := by
  unfold simulate at h
  cases hr : resolveDiameter lookup req with
  | error e => rw [hr] at h; exact absurd h (by simp)
  | ok dOpt =>
      rw [hr] at h
      simp only [Except.ok.injEq] at h
      exact ⟨dOpt, rfl, h.symm⟩

lemma resolveDiameter_none {lookup : String → Except String NeoPayload}
    {req : SimRequest} (h : req.neo_id = none) :
    resolveDiameter lookup req = Except.ok req.diameter_m := by
  unfold resolveDiameter
  rw [h]

lemma runPipeline_input_diameter (dOpt : Option ℝ) (req : SimRequest) :
    (runPipeline dOpt req).input.diameter_m = dOpt.getD 50 := rfl

lemma runPipeline_input_velocity (dOpt : Option ℝ) (req : SimRequest) :
    (runPipeline dOpt req).input.velocity_m_s = req.velocity_m_s.getD 20000 := rfl

lemma runPipeline_input_deflection (dOpt : Option ℝ) (req : SimRequest) :
    (runPipeline dOpt req).input.deflection_m_s = req.deflection_m_s.getD 0 := rfl

lemma runPipeline_mass (dOpt : Option ℝ) (req : SimRequest) :
    (runPipeline dOpt req).results.mass_kg =
      sphere_mass (dOpt.getD 50) (req.density.getD 3000) := rfl

lemma runPipeline_energy (dOpt : Option ℝ) (req : SimRequest) :
    (runPipeline dOpt req).results.energy_joules =
      kinetic_energy_joules (sphere_mass (dOpt.getD 50) (req.density.getD 3000))
        (max 0 (req.velocity_m_s.getD 20000 - req.deflection_m_s.getD 0)) := rfl

lemma runPipeline_tnt (dOpt : Option ℝ) (req : SimRequest) :
    (runPipeline dOpt req).results.tnt_megatons =
      tnt_equivalent_megatons ((runPipeline dOpt req).results.energy_joules) := rfl

lemma runPipeline_crater (dOpt : Option ℝ) (req : SimRequest) :
    (runPipeline dOpt req).results.crater_diameter_m =
      crater_diameter_estimate_m ((runPipeline dOpt req).results.energy_joules) := rfl

lemma runPipeline_seismic (dOpt : Option ℝ) (req : SimRequest) :
    (runPipeline dOpt req).results.seismic_mw_equivalent =
      seismic_mw_equivalent ((runPipeline dOpt req).results.energy_joules) := rfl

lemma runPipeline_height (dOpt : Option ℝ) (req : SimRequest) :
    (runPipeline dOpt req).results.tsunami_initial_height_m =
      tsunami_initial_wave_height_m ((runPipeline dOpt req).results.energy_joules)
        (req.water_depth_m.getD 4000) := rfl

lemma runPipeline_radius (dOpt : Option ℝ) (req : SimRequest) :
    (runPipeline dOpt req).results.tsunami_radius_km =
      min 5000.0 (100.0 *
        (max 0.001 ((runPipeline dOpt req).results.tnt_megatons)) ^ ((1 : ℝ) / 4)) := rfl

end

-- ---------- numeric bounding helpers ----------

lemma rpow_third_bounds {x a b : ℝ} (ha : 0 ≤ a) (hb : 0 ≤ b)
    (h1 : a ^ 3 < x) (h2 : x < b ^ 3) :
    a < x ^ ((1 : ℝ) / 3) ∧ x ^ ((1 : ℝ) / 3) < b := by
  have hx : 0 ≤ x := le_of_lt (lt_of_le_of_lt (pow_nonneg ha 3) h1)
  have e3 : ((3 : ℕ) : ℝ) * ((1 : ℝ) / 3) = 1 := by norm_num
  constructor
  · have h := Real.rpow_lt_rpow (pow_nonneg ha 3) h1 (by norm_num : (0 : ℝ) < 1 / 3)
    rwa [← Real.rpow_natCast a 3, ← Real.rpow_mul ha, e3, Real.rpow_one] at h
  · have h := Real.rpow_lt_rpow hx h2 (by norm_num : (0 : ℝ) < 1 / 3)
    rwa [← Real.rpow_natCast b 3, ← Real.rpow_mul hb, e3, Real.rpow_one] at h

lemma rpow_fourth_bounds {x a b : ℝ} (ha : 0 ≤ a) (hb : 0 ≤ b)
    (h1 : a ^ 4 < x) (h2 : x < b ^ 4) :
    a < x ^ ((1 : ℝ) / 4) ∧ x ^ ((1 : ℝ) / 4) < b := by
  have hx : 0 ≤ x := le_of_lt (lt_of_le_of_lt (pow_nonneg ha 4) h1)
  have e4 : ((4 : ℕ) : ℝ) * ((1 : ℝ) / 4) = 1 := by norm_num
  constructor
  · have h := Real.rpow_lt_rpow (pow_nonneg ha 4) h1 (by norm_num : (0 : ℝ) < 1 / 4)
    rwa [← Real.rpow_natCast a 4, ← Real.rpow_mul ha, e4, Real.rpow_one] at h
  · have h := Real.rpow_lt_rpow hx h2 (by norm_num : (0 : ℝ) < 1 / 4)
    rwa [← Real.rpow_natCast b 4, ← Real.rpow_mul hb, e4, Real.rpow_one] at h

lemma le_logb_ten_of_pow {x : ℝ} (n m : ℕ) (hm : 0 < m) (hx : 0 < x)
    (h : (10 : ℝ) ^ n ≤ x ^ m) : (n : ℝ) / (m : ℝ) ≤ Real.logb 10 x := by
  have h10 : (1 : ℝ) < 10 := by norm_num
  have key : ((n : ℝ)) ≤ Real.logb 10 (x ^ m) := by
    rw [Real.le_logb_iff_rpow_le h10 (pow_pos hx m), Real.rpow_natCast]
    exact h
  rw [Real.logb_pow] at key
  rw [div_le_iff₀ (by positivity : (0 : ℝ) < (m : ℝ))]
  linarith

lemma logb_ten_le_of_pow {x : ℝ} (n m : ℕ) (hm : 0 < m) (hx : 0 < x)
    (h : x ^ m ≤ (10 : ℝ) ^ n) : Real.logb 10 x ≤ (n : ℝ) / (m : ℝ) := by
  have h10 : (1 : ℝ) < 10 := by norm_num
  have key : Real.logb 10 (x ^ m) ≤ ((n : ℝ)) := by
    rw [Real.logb_le_iff_le_rpow h10 (pow_pos hx m), Real.rpow_natCast]
    exact h
  rw [Real.logb_pow] at key
  rw [le_div_iff₀ (by positivity : (0 : ℝ) < (m : ℝ))]
  linarith

-- ---------- scenario 1 concrete values ----------

lemma s1_mass : scenario1Resp.results.mass_kg = 62500000 * Real.pi := by
  show sphere_mass 50 3000 = 62500000 * Real.pi
  unfold sphere_mass
  norm_num
  ring

lemma s1_energy :
    scenario1Resp.results.energy_joules = 12500000000000000 * Real.pi := by
  show kinetic_energy_joules (sphere_mass 50 3000) (max 0 (20000 - 0)) =
    12500000000000000 * Real.pi
  rw [max_eq_right (by norm_num : (0 : ℝ) ≤ 20000 - 0)]
  unfold kinetic_energy_joules sphere_mass
  norm_num
  ring

lemma s1_tnt :
    scenario1Resp.results.tnt_megatons =
      12500000000000000 * Real.pi / 4.184e15 := by
  have h : scenario1Resp.results.tnt_megatons =
      tnt_equivalent_megatons scenario1Resp.results.energy_joules := rfl
  rw [h, s1_energy]
  rfl

lemma s1_energy_bounds :
    (39269900000000000 : ℝ) < scenario1Resp.results.energy_joules ∧
    scenario1Resp.results.energy_joules < 39269912500000000 := by
  rw [s1_energy]
  constructor
  · linarith [Real.pi_gt_d6]
  · linarith [Real.pi_lt_d6]

lemma s1_crater_bounds :
    23793 < scenario1Resp.results.crater_diameter_m ∧
    scenario1Resp.results.crater_diameter_m < 23794 := by
  obtain ⟨hE1, hE2⟩ := s1_energy_bounds
  have hc : scenario1Resp.results.crater_diameter_m =
      crater_diameter_estimate_m scenario1Resp.results.energy_joules := rfl
  have h1 : (339900 : ℝ) ^ 3 < scenario1Resp.results.energy_joules := by
    nlinarith
  have h2 : scenario1Resp.results.energy_joules < (339910 : ℝ) ^ 3 := by
    nlinarith
  obtain ⟨hr1, hr2⟩ :=
    rpow_third_bounds (by norm_num : (0 : ℝ) ≤ 339900)
      (by norm_num : (0 : ℝ) ≤ 339910) h1 h2
  rw [hc]
  unfold crater_diameter_estimate_m
  constructor <;> nlinarith

lemma s1_seismic_eq :
    scenario1Resp.results.seismic_mw_equivalent =
      (Real.logb 10 scenario1Resp.results.energy_joules - 5.24) / 1.44 := by
  obtain ⟨hE1, -⟩ := s1_energy_bounds
  have hpos : (0 : ℝ) < scenario1Resp.results.energy_joules := by linarith
  have h : scenario1Resp.results.seismic_mw_equivalent =
      seismic_mw_equivalent scenario1Resp.results.energy_joules := rfl
  rw [h]
  unfold seismic_mw_equivalent
  rw [if_neg (not_le.mpr hpos)]

lemma s1_logb_bounds :
    (829 : ℝ) / 50 ≤ Real.logb 10 scenario1Resp.results.energy_joules ∧
    Real.logb 10 scenario1Resp.results.energy_joules ≤ (830 : ℝ) / 50 := by
  obtain ⟨hE1, hE2⟩ := s1_energy_bounds
  have hpos : (0 : ℝ) < scenario1Resp.results.energy_joules := by linarith
  constructor
  · refine le_logb_ten_of_pow 829 50 (by norm_num) hpos ?_
    calc (10 : ℝ) ^ (829 : ℕ) ≤ (39269900000000000 : ℝ) ^ (50 : ℕ) := by norm_num
      _ ≤ _ := pow_le_pow_left₀ (by norm_num) (le_of_lt hE1) 50
  · refine logb_ten_le_of_pow 830 50 (by norm_num) hpos ?_
    calc scenario1Resp.results.energy_joules ^ (50 : ℕ)
        ≤ (39269912500000000 : ℝ) ^ (50 : ℕ) :=
          pow_le_pow_left₀ (le_of_lt hpos) (le_of_lt hE2) 50
      _ ≤ (10 : ℝ) ^ (830 : ℕ) := by norm_num

lemma s1_seismic_bounds :
    7.87 ≤ scenario1Resp.results.seismic_mw_equivalent ∧
    scenario1Resp.results.seismic_mw_equivalent ≤ 7.889 := by
  obtain ⟨hl, hu⟩ := s1_logb_bounds
  rw [s1_seismic_eq]
  have h144 : (0 : ℝ) < 1.44 := by norm_num
  constructor
  · rw [le_div_iff₀ h144]
    nlinarith
  · rw [div_le_iff₀ h144]
    nlinarith

-- ---------- scenario 2 concrete values ----------

lemma s2_energy : scenario2Resp.results.energy_joules = 0 := by
  show kinetic_energy_joules (sphere_mass 50 3000) (max 0 (20000 - 25000)) = 0
  rw [max_eq_left (by norm_num : (20000 : ℝ) - 25000 ≤ 0)]
  unfold kinetic_energy_joules
  ring

lemma s2_tnt : scenario2Resp.results.tnt_megatons = 0 := by
  have h : scenario2Resp.results.tnt_megatons =
      tnt_equivalent_megatons scenario2Resp.results.energy_joules := rfl
  rw [h, s2_energy]
  unfold tnt_equivalent_megatons
  norm_num

lemma s2_crater : scenario2Resp.results.crater_diameter_m = 0 := by
  have h : scenario2Resp.results.crater_diameter_m =
      crater_diameter_estimate_m scenario2Resp.results.energy_joules := rfl
  rw [h, s2_energy]
  unfold crater_diameter_estimate_m
  rw [Real.zero_rpow (by norm_num : ((1 : ℝ) / 3) ≠ 0)]
  norm_num

lemma s2_seismic : scenario2Resp.results.seismic_mw_equivalent = 0 := by
  have h : scenario2Resp.results.seismic_mw_equivalent =
      seismic_mw_equivalent scenario2Resp.results.energy_joules := rfl
  rw [h, s2_energy]
  unfold seismic_mw_equivalent
  rw [if_pos le_rfl]

lemma s2_height : scenario2Resp.results.tsunami_initial_height_m = 0.01 := by
  have h : scenario2Resp.results.tsunami_initial_height_m =
      tsunami_initial_wave_height_m scenario2Resp.results.energy_joules 4000 := rfl
  rw [h, s2_energy]
  simp only [tsunami_initial_wave_height_m]
  rw [zero_div, Real.zero_rpow (by norm_num : ((1 : ℝ) / 4) ≠ 0),
    mul_zero, zero_mul,
    min_eq_left (by norm_num : (0 : ℝ) ≤ 200.0),
    max_eq_left (by norm_num : (0 : ℝ) ≤ 0.01)]

lemma s2_radius_bounds :
    17.7 < scenario2Resp.results.tsunami_radius_km ∧
    scenario2Resp.results.tsunami_radius_km < 17.8 := by
  have h : scenario2Resp.results.tsunami_radius_km =
      min 5000.0 (100.0 *
        (max 0.001 scenario2Resp.results.tnt_megatons) ^ ((1 : ℝ) / 4)) := rfl
  rw [h, s2_tnt, max_eq_left (by norm_num : (0 : ℝ) ≤ 0.001)]
  obtain ⟨hr1, hr2⟩ :=
    rpow_fourth_bounds (by norm_num : (0 : ℝ) ≤ 0.177)
      (by norm_num : (0 : ℝ) ≤ 0.178)
      (by norm_num : (0.177 : ℝ) ^ 4 < 0.001)
      (by norm_num : (0.001 : ℝ) < 0.178 ^ 4)
  rw [min_eq_right (by nlinarith : (100.0 : ℝ) * (0.001 : ℝ) ^ ((1 : ℝ) / 4) ≤ 5000.0)]
  constructor <;> nlinarith

/-- Claim C9: `tsunami_initial_wave_height_m` stays within `[0.01, 200]`
for every non-negative energy and positive water depth; the internal
division is guarded by `max 1 water_depth`, so the function is total
on that domain. -/
theorem C9_height_clamped (E_joules water_depth_m : ℝ)
    (_hE : 0 ≤ E_joules) (_hd : 0 < water_depth_m) :
    0.01 ≤ tsunami_initial_wave_height_m E_joules water_depth_m ∧
      tsunami_initial_wave_height_m E_joules water_depth_m ≤ 200 := by
  unfold tsunami_initial_wave_height_m
  refine ⟨le_max_left _ _, ?_⟩
  exact max_le (by norm_num) (le_trans (min_le_right _ _) (by norm_num))

/-- Witness for C9 at energy `0`, depth `4000`. -/
theorem C9_height_clamped_witness :
    0.01 ≤ tsunami_initial_wave_height_m 0 4000 ∧
      tsunami_initial_wave_height_m 0 4000 ≤ 200 :=
  C9_height_clamped 0 4000 (by norm_num) (by norm_num)

/-- Claim C6: for every successful simulation, the energy in the result
is the kinetic energy of the result's mass at effective velocity
`max 0 (velocity_m_s - deflection_m_s)` (computed from the echoed
normalized inputs); in particular, when the deflection is at least the
velocity the energy is `0`. -/
theorem C6_effective_velocity (lookup : String → Except String NeoPayload)
    (req : SimRequest) (resp : SimResponse)
    (h : simulate lookup req = Except.ok resp) :
    resp.results.energy_joules =
      kinetic_energy_joules resp.results.mass_kg
        (max 0 (resp.input.velocity_m_s - resp.input.deflection_m_s)) ∧
    (resp.input.velocity_m_s ≤ resp.input.deflection_m_s →
      resp.results.energy_joules = 0) := by
  obtain ⟨dOpt, -, rfl⟩ := simulate_ok_inv h
  constructor
  · rfl
  · intro hle
    rw [runPipeline_input_velocity, runPipeline_input_deflection] at hle
    rw [runPipeline_energy, max_eq_left (by linarith)]
    unfold kinetic_energy_joules
    ring

/-- Witness for C6 on scenario 2, where deflection 25000 exceeds
velocity 20000. -/
theorem C6_effective_velocity_witness :
    scenario2Resp.results.energy_joules =
      kinetic_energy_joules scenario2Resp.results.mass_kg
        (max 0 (scenario2Resp.input.velocity_m_s -
          scenario2Resp.input.deflection_m_s)) ∧
    scenario2Resp.results.energy_joules = 0 :=
  ⟨(C6_effective_velocity failLookup scenario2 scenario2Resp rfl).1,
   (C6_effective_velocity failLookup scenario2 scenario2Resp rfl).2
     (show (20000 : ℝ) ≤ 25000 by norm_num)⟩

/-- Claim C10: a request omitting both `diameter_m` and `neo_id` gets the
default diameter `50`, and a request omitting `velocity_m_s` gets the
default velocity `20000`, both echoed in the normalized input. -/
theorem C10_defaults (lookup : String → Except String NeoPayload)
    (req : SimRequest) (resp : SimResponse)
    (h : simulate lookup req = Except.ok resp) :
    (req.diameter_m = none → req.neo_id = none →
      resp.input.diameter_m = 50) ∧
    (req.velocity_m_s = none → resp.input.velocity_m_s = 20000) := by
  obtain ⟨dOpt, hres, rfl⟩ := simulate_ok_inv h
  constructor
  · intro hd hn
    rw [resolveDiameter_none hn, hd] at hres
    simp only [Except.ok.injEq] at hres
    rw [runPipeline_input_diameter, ← hres]
    rfl
  · intro hv
    rw [runPipeline_input_velocity, hv]
    rfl

/-- Witness for C10 on the all-defaults request. -/
theorem C10_defaults_witness :
    (runPipeline none emptyReq).input.diameter_m = 50 ∧
    (runPipeline none emptyReq).input.velocity_m_s = 20000 :=
  ⟨(C10_defaults failLookup emptyReq (runPipeline none emptyReq) rfl).1 rfl rfl,
   (C10_defaults failLookup emptyReq (runPipeline none emptyReq) rfl).2 rfl⟩

/-- Counterexample for claim C3: the energy `10 ^ 5.24` is strictly
positive, yet `seismic_mw_equivalent` returns `0` on it, so the
function is not nonzero on every strictly positive energy. -/
theorem C3_counterexample :
    (0 : ℝ) < (10 : ℝ) ^ (5.24 : ℝ) ∧
      seismic_mw_equivalent ((10 : ℝ) ^ (5.24 : ℝ)) = 0 := by
  have hpos : (0 : ℝ) < (10 : ℝ) ^ (5.24 : ℝ) :=
    Real.rpow_pos_of_pos (by norm_num) _
  refine ⟨hpos, ?_⟩
  unfold seismic_mw_equivalent
  rw [if_neg (not_le.mpr hpos),
    Real.logb_rpow (by norm_num) (by norm_num)]
  norm_num

/-- Claim C3 as amended: `seismic_mw_equivalent` is `0` on every
non-positive energy, and on every strictly positive energy it equals
`(log10 E - 5.24) / 1.44` (which itself vanishes at `E = 10 ^ 5.24`). -/
theorem C3_amended (E_joules : ℝ) :
    (E_joules ≤ 0 → seismic_mw_equivalent E_joules = 0) ∧
    (0 < E_joules → seismic_mw_equivalent E_joules =
      (Real.logb 10 E_joules - 5.24) / 1.44) := by
  constructor
  · intro hle
    unfold seismic_mw_equivalent
    rw [if_pos hle]
  · intro hpos
    unfold seismic_mw_equivalent
    rw [if_neg (not_le.mpr hpos)]

/-- Witness for C3 (amended) at energies `-1` and `100`. -/
theorem C3_amended_witness :
    seismic_mw_equivalent (-1) = 0 ∧
    seismic_mw_equivalent 100 = (Real.logb 10 100 - 5.24) / 1.44 :=
  ⟨(C3_amended (-1)).1 (by norm_num), (C3_amended 100).2 (by norm_num)⟩

/-- A request whose `neo_id` key is present but holds the empty string
(falsy in the source's truthiness test). -/
def emptyNeoReq : SimRequest := { scenario1 with neo_id := some "" }

/-- Counterexample for claim C5: `emptyNeoReq` has `neo_id` present
(`some ""`) and the catalog lookup fails on every id, yet `simulate`
succeeds and produces a full result, because the source only performs
the lookup when `neo_id` is truthy (non-empty). -/
theorem C5_counterexample :
    emptyNeoReq.neo_id = some "" ∧
    failLookup "" = Except.error "boom" ∧
    simulate failLookup emptyNeoReq =
      Except.ok (runPipeline (some 50) emptyNeoReq) :=
  ⟨rfl, rfl, rfl⟩

/-- Claim C5 as amended: for every request whose `neo_id` is a
non-empty string and whose catalog lookup fails with some reason, the
simulation fails with the lookup-failure error carrying that reason,
and no result is produced. -/
theorem C5_lookup_failure (lookup : String → Except String NeoPayload)
    (req : SimRequest) (id e : String)
    (hid : req.neo_id = some id) (hne : id ≠ "")
    (hl : lookup id = Except.error e) :
    simulate lookup req = Except.error ("Failed to fetch NEO: " ++ e) := by
  have hres : resolveDiameter lookup req =
      Except.error ("Failed to fetch NEO: " ++ e) := by
    unfold resolveDiameter
    rw [hid]
    dsimp only
    rw [if_neg hne, hl]
  unfold simulate
  rw [hres]

/-- A scenario-1 request that also carries a (doomed) catalog id. -/
def neoReq : SimRequest := { scenario1 with neo_id := some "42" }

/-- Witness for C5 (amended) with id `"42"` and the failing catalog. -/
theorem C5_lookup_failure_witness :
    simulate failLookup neoReq =
      Except.error ("Failed to fetch NEO: " ++ "boom") :=
  C5_lookup_failure failLookup neoReq "42" "boom" rfl (by decide) rfl

/-- A catalog collaborator that succeeds with a payload missing the
expected diameter path. -/
def noDiameterLookup : String → Except String NeoPayload :=
  fun _ => Except.ok { estimated_diameter_max := none }

/-- Claim C7: when the catalog lookup succeeds but its payload lacks
the maximum-estimated-diameter field, `simulate` silently keeps the
caller-supplied (or default) `diameter_m` and completes. -/
theorem C7_lenient_payload (lookup : String → Except String NeoPayload)
    (req : SimRequest) (id : String) (p : NeoPayload)
    (hid : req.neo_id = some id) (hne : id ≠ "")
    (hl : lookup id = Except.ok p) (hp : p.estimated_diameter_max = none) :
    simulate lookup req = Except.ok (runPipeline req.diameter_m req) ∧
    (runPipeline req.diameter_m req).input.diameter_m =
      req.diameter_m.getD 50 := by
  refine ⟨?_, rfl⟩
  have hres : resolveDiameter lookup req = Except.ok req.diameter_m := by
    unfold resolveDiameter
    rw [hid]
    dsimp only
    rw [if_neg hne, hl]
    dsimp only
    rw [hp]
  unfold simulate
  rw [hres]

/-- Witness for C7 on `neoReq` with the diameter-less catalog. -/
theorem C7_lenient_payload_witness :
    simulate noDiameterLookup neoReq =
      Except.ok (runPipeline neoReq.diameter_m neoReq) ∧
    (runPipeline neoReq.diameter_m neoReq).input.diameter_m =
      neoReq.diameter_m.getD 50 :=
  C7_lenient_payload noDiameterLookup neoReq "42"
    { estimated_diameter_max := none } rfl (by decide) rfl rfl

/-- Claim C8: in every successful simulation, `tsunami_radius_km`
equals `min 5000 (100 · max(0.001, tnt_megatons) ^ 0.25)` (the
computation is total over the reals, so the source's degrade-to-`0`
exception branch is unreachable), and it always lies in `[0, 5000]`. -/
theorem C8_radius (lookup : String → Except String NeoPayload)
    (req : SimRequest) (resp : SimResponse)
    (h : simulate lookup req = Except.ok resp) :
    resp.results.tsunami_radius_km =
      min 5000.0 (100.0 * (max 0.001 resp.results.tnt_megatons) ^ ((1 : ℝ) / 4)) ∧
    0 ≤ resp.results.tsunami_radius_km ∧
    resp.results.tsunami_radius_km ≤ 5000 := by
  obtain ⟨dOpt, -, rfl⟩ := simulate_ok_inv h
  refine ⟨rfl, ?_, ?_⟩
  · rw [runPipeline_radius]
    refine le_min (by norm_num) ?_
    have hb : (0 : ℝ) ≤ max 0.001 ((runPipeline dOpt req).results.tnt_megatons) :=
      le_trans (by norm_num) (le_max_left _ _)
    positivity
  · rw [runPipeline_radius]
    exact le_trans (min_le_left _ _) (by norm_num)

/-- Witness for C8 on scenario 1. -/
theorem C8_radius_witness :
    scenario1Resp.results.tsunami_radius_km =
      min 5000.0 (100.0 *
        (max 0.001 scenario1Resp.results.tnt_megatons) ^ ((1 : ℝ) / 4)) ∧
    0 ≤ scenario1Resp.results.tsunami_radius_km ∧
    scenario1Resp.results.tsunami_radius_km ≤ 5000 :=
  C8_radius failLookup scenario1 scenario1Resp rfl

/-- Counterexample for claim C1: on the scenario-1 input the pipeline's
crater diameter exceeds 23793 m, nowhere near the claimed 3391.8 m (the
claim fails even with a generous ±1000 m tolerance), and its seismic
magnitude is at most 7.889, not 8.52 (fails even with a ±0.4
tolerance). -/
theorem C1_counterexample :
    simulate failLookup scenario1 = Except.ok scenario1Resp ∧
    ¬ (|scenario1Resp.results.crater_diameter_m - 3391.8| ≤ 1000) ∧
    ¬ (|scenario1Resp.results.seismic_mw_equivalent - 8.52| ≤ 0.4) := by
  refine ⟨rfl, ?_, ?_⟩
  · obtain ⟨h1, -⟩ := s1_crater_bounds
    rw [abs_le]
    push_neg
    intro h
    linarith
  · obtain ⟨-, h2⟩ := s1_seismic_bounds
    rw [abs_le]
    push_neg
    intro h
    linarith

/-- Claim C1 as amended: on the scenario-1 input, `simulate` produces
`mass_kg ≈ 1.9635e8`, `energy_joules ≈ 3.927e16` and
`tnt_megatons ≈ 9.39` as claimed, but `crater_diameter_m ≈ 23793`
(not 3391.8) and `seismic_mw_equivalent ≈ 7.88` (not 8.52). -/
theorem C1_scenario1_values :
    simulate failLookup scenario1 = Except.ok scenario1Resp ∧
    |scenario1Resp.results.mass_kg - 1.9635e8| ≤ 600 ∧
    |scenario1Resp.results.energy_joules - 3.927e16| ≤ 2e11 ∧
    |scenario1Resp.results.tnt_megatons - 9.39| ≤ 0.005 ∧
    23793 < scenario1Resp.results.crater_diameter_m ∧
    scenario1Resp.results.crater_diameter_m < 23794 ∧
    7.87 ≤ scenario1Resp.results.seismic_mw_equivalent ∧
    scenario1Resp.results.seismic_mw_equivalent ≤ 7.889 := by
  obtain ⟨hc1, hc2⟩ := s1_crater_bounds
  obtain ⟨hs1, hs2⟩ := s1_seismic_bounds
  refine ⟨rfl, ?_, ?_, ?_, hc1, hc2, hs1, hs2⟩
  · rw [s1_mass, abs_le]
    constructor <;> linarith [Real.pi_gt_d6, Real.pi_lt_d6]
  · rw [s1_energy, abs_le]
    constructor <;> linarith [Real.pi_gt_d6, Real.pi_lt_d6]
  · have h4184 : (0 : ℝ) < 4.184e15 := by norm_num
    have htnt1 : (9.385 : ℝ) ≤ 12500000000000000 * Real.pi / 4.184e15 := by
      rw [le_div_iff₀ h4184]
      nlinarith [Real.pi_gt_d6]
    have htnt2 : 12500000000000000 * Real.pi / 4.184e15 ≤ (9.395 : ℝ) := by
      rw [div_le_iff₀ h4184]
      nlinarith [Real.pi_lt_d6]
    rw [s1_tnt, abs_le]
    constructor <;> linarith

/-- Counterexample for claim C2: on the scenario-2 input (deflection
25000 exceeding velocity 20000) the energy is indeed `0`, but
`tsunami_radius_km` is not an energy-derived zero: it is above 17 km
(the `0.001` megaton floor feeds the quarter-power law). -/
theorem C2_counterexample :
    simulate failLookup scenario2 = Except.ok scenario2Resp ∧
    scenario2Resp.results.energy_joules = 0 ∧
    17 < scenario2Resp.results.tsunami_radius_km ∧
    scenario2Resp.results.tsunami_radius_km ≠ 0 := by
  obtain ⟨hr1, hr2⟩ := s2_radius_bounds
  exact ⟨rfl, s2_energy, by linarith, ne_of_gt (by linarith)⟩

/-- Claim C2 as amended: on the scenario-2 input, energy, TNT
equivalent, crater diameter and seismic magnitude are all `0`, the
tsunami height floors at `0.01`, but `tsunami_radius_km` is
`100·0.001^0.25 ≈ 17.78`, not `0`. -/
theorem C2_scenario2_values :
    simulate failLookup scenario2 = Except.ok scenario2Resp ∧
    scenario2Resp.results.energy_joules = 0 ∧
    scenario2Resp.results.tnt_megatons = 0 ∧
    scenario2Resp.results.crater_diameter_m = 0 ∧
    scenario2Resp.results.seismic_mw_equivalent = 0 ∧
    scenario2Resp.results.tsunami_initial_height_m = 0.01 ∧
    17.7 < scenario2Resp.results.tsunami_radius_km ∧
    scenario2Resp.results.tsunami_radius_km < 17.8 :=
  ⟨rfl, s2_energy, s2_tnt, s2_crater, s2_seismic, s2_height,
   s2_radius_bounds.1, s2_radius_bounds.2⟩

-- ---------- the narrative formatter ----------

noncomputable section

/-- The numeric fields the narrative reads from its `results` map;
absent keys are `none`. -/
structure StoryFields where
  tnt_megatons : Option ℝ
  crater_diameter_m : Option ℝ
  seismic_mw_equivalent : Option ℝ
  tsunami_initial_height_m : Option ℝ
  tsunami_radius_km : Option ℝ

/-- A `/story` request after the source's `s.get("results", s)` and
`s.get("input", \x7b\x7d)` resolution: the numeric field map plus the
optional input coordinates. -/
structure StoryRequest where
  results : StoryFields
  impact_lat : Option ℝ
  impact_lon : Option ℝ

/-- Failure of the narrative operation: a required numeric field was
absent (in the source, string-formatting `None` raises). -/
inductive StoryError where
  | MissingField

/-- The variable content of the narrative paragraph: the template text
is fixed, so the paragraph is modelled by the numbers interpolated
into it. -/
structure StoryText where
  location : Option (ℝ × ℝ)
  tnt_megatons : ℝ
  crater_km : ℝ
  seismic_mw : ℝ
  tsunami_height_m : ℝ
  tsunami_radius_km : ℝ

/-- Source line 115: the location clause appears only when both
coordinates are present and non-zero (Python truthiness). -/
def locationClause (lat lon : Option ℝ) : Option (ℝ × ℝ) :=
  match lat, lon with
  | some a, some b => if a = 0 ∨ b = 0 then none else some (a, b)
  | _, _ => none

/-- The `/story` handler (source lines 102-125): `crater_diameter_m` is
read with `r.get(key, 0)` and so defaults to `0`, while the other four
numeric fields are formatted directly and a missing one raises,
surfacing as a missing-field failure with no paragraph produced. -/
def story (s : StoryRequest) : Except StoryError StoryText :=
  match s.results.tnt_megatons, s.results.seismic_mw_equivalent,
      s.results.tsunami_initial_height_m, s.results.tsunami_radius_km with
  | some tnt, some mw, some h, some radius =>
      Except.ok { location := locationClause s.impact_lat s.impact_lon,
                  tnt_megatons := tnt,
                  crater_km := s.results.crater_diameter_m.getD 0 / 1000,
                  seismic_mw := mw, tsunami_height_m := h,
                  tsunami_radius_km := radius }
  | _, _, _, _ => Except.error StoryError.MissingField

/-- A results object missing only `crater_diameter_m`. -/
def storyNoCrater : StoryRequest :=
  { results := { tnt_megatons := some 9.39, crater_diameter_m := none,
                 seismic_mw_equivalent := some 7.89,
                 tsunami_initial_height_m := some 1.25,
                 tsunami_radius_km := some 175 },
    impact_lat := none, impact_lon := none }

end

/-- Counterexample for claim C4: a result missing `crater_diameter_m`
(with the other four numeric fields present) does not fail — the
narrative is produced with the crater defaulted to `0`. -/
theorem C4_counterexample :
    storyNoCrater.results.crater_diameter_m = none ∧
    story storyNoCrater =
      Except.ok { location := none, tnt_megatons := 9.39,
                  crater_km := 0 / 1000, seismic_mw := 7.89,
                  tsunami_height_m := 1.25, tsunami_radius_km := 175 } :=
  ⟨rfl, rfl⟩

/-- Claim C4 as amended: the narrative fails with `MissingField`
exactly when one of `tnt_megatons`, `seismic_mw_equivalent`,
`tsunami_initial_height_m`, `tsunami_radius_km` is absent (and then no
paragraph is produced); a missing `crater_diameter_m` alone does not
fail, it is defaulted to `0`. -/
theorem C4_missing_fields (s : StoryRequest) :
    story s = Except.error StoryError.MissingField ↔
      (s.results.tnt_megatons = none ∨
       s.results.seismic_mw_equivalent = none ∨
       s.results.tsunami_initial_height_m = none ∨
       s.results.tsunami_radius_km = none) := by
  rcases s with ⟨⟨t, c, m, h, r⟩, la, lo⟩
  cases t <;> cases m <;> cases h <;> cases r <;> simp [story]

end NASAapp
